import Mathlib

/-!
Verification of the config-resolution utilities of `audioldm2/utils.py`
(the AudioLDM2 fork): the dynamic-object instantiation mechanism
(`instantiate_from_config` / `get_obj_from_str`), the value-default helper
(`default` / `exists`), the WAV inspection helpers (`get_duration` /
`get_bit_depth`) and the checkpoint download entry point
(`download_checkpoint` / `get_metadata`).

The Python code is shallowly embedded: Python values relevant to the
resolver are an inductive `PyVal`; loadable modules (the `importlib`
environment) are a function from module names to namespaces; exceptions
become an error type `PyErr` threaded through `Except`; the bare
`except: ipdb.set_trace()` handler of `instantiate_from_config` is a
distinguished outcome `PyResult.debugger` recording that the interactive
debugger is entered with the in-flight exception.
-/

set_option autoImplicit false

namespace AudioLDM2

/-- Python exceptions (and the spec's abstract error taxonomy mapped onto
them).  Each constructor corresponds to the concrete exception class the
Python code raises at the relevant program point. -/
inductive PyErr where
  /-- `TypeError`, e.g. indexing a `str` with a `str` key. -/
  | typeError (msg : String)
  /-- `KeyError`, e.g. missing dict key. -/
  | keyError (msg : String)
  /-- `ValueError`, e.g. unpacking a 1-element list into two names. -/
  | valueError (msg : String)
  /-- `ModuleNotFoundError` from `importlib.import_module`. -/
  | moduleNotFound (modName : String)
  /-- `AttributeError` from `getattr` (or calling `.rsplit` on a non-str). -/
  | attributeError (name : String)
  /-- `ZeroDivisionError`. -/
  | zeroDivisionError
  /-- An exception raised by user code (a constructor body). -/
  | userError (msg : String)
  deriving DecidableEq, Repr

/-- Python values, as far as the config resolver observes them:
`None`, numbers, strings, dicts with string keys, and constructed
instances.  An instance records the name of the class that built it and
the keyword arguments it was constructed with; attribute access on it
(`getattrOn`) reads the stored keyword arguments, modelling a constructor
that stores each keyword argument as an attribute. -/
inductive PyVal where
  | none
  | int (n : Int)
  | str (s : String)
  | dict (entries : List (String × PyVal))
  | instance (cls : String) (kwargs : List (String × PyVal))

/-- Attribute access on a constructed instance (for a constructor that
stores its keyword arguments as attributes). -/
def getattrOn : PyVal → String → Option PyVal
  | .instance _ kwargs, a => kwargs.lookup a
  | _, _ => Option.none

/-- A Python object retrievable from a module: something that can be
called with keyword arguments (a class or factory function).  Calling it
either returns a value or raises. -/
structure PyObj where
  call : List (String × PyVal) → Except PyErr PyVal

/-- The `importlib` environment: maps a module path to its namespace
(itself a map from symbol name to object), or `none` when the module
cannot be imported. -/
def PyEnv : Type := String → Option (String → Option PyObj)

/-- Splits a character list at the first occurrence of `sep`:
returns the elements before and after it, or `none` if `sep` is absent. -/
def breakAtFirst (sep : Char) : List Char → Option (List Char × List Char)
  | [] => Option.none
  | c :: cs =>
    if c = sep then some ([], cs)
    else match breakAtFirst sep cs with
      | Option.none => Option.none
      | some (a, b) => some (c :: a, b)

/-- Python's `s.rsplit(sep, 1)` restricted to the successful two-part
case: splits `s` at the LAST occurrence of `sep` into the part before and
the part after; `none` when `sep` does not occur (in which case the
Python tuple unpacking `module, cls = ...` raises `ValueError`). -/
def rsplitLast (sep : Char) (s : String) : Option (String × String) :=
  match breakAtFirst sep s.toList.reverse with
  | Option.none => Option.none
  | some (sufRev, preRev) => some (⟨preRev.reverse⟩, ⟨sufRev.reverse⟩)

/-- The `ValueError` raised by `module, cls = string.rsplit(".", 1)` when
the identifier has no dot — the spec's `MalformedIdentifier`. -/
def MalformedIdentifier : PyErr :=
  .valueError "not enough values to unpack (expected 2, got 1)"

/-- `importlib.import_module(module)` followed by `getattr(..., cls)`. -/
def importGetattr (env : PyEnv) (modName cls : String) : Except PyErr PyObj :=
  match env modName with
  | Option.none => .error (.moduleNotFound modName)
  | some ns =>
    match ns cls with
    | Option.none => .error (.attributeError cls)
    | some obj => .ok obj

/-- Embedding of `get_obj_from_str(string, reload=False)`: split the
identifier on the last `"."` into module path and symbol name (raising
`ValueError` when there is no dot), optionally import-and-reload the
module, then import the module and return the named attribute. -/
def get_obj_from_str (env : PyEnv) (string : String) (reload : Bool := false) :
    Except PyErr PyObj :=
  match rsplitLast '.' string with
  | Option.none => .error MalformedIdentifier
  | some (modName, cls) =>
    if reload then
      match env modName with
      | Option.none => .error (.moduleNotFound modName)
      | some _ => importGetattr env modName cls
    else importGetattr env modName cls

/-- The argument of `instantiate_from_config`: in the code paths the
claims exercise, it is either a plain string or a dict (config node). -/
inductive PyConfig where
  | str (s : String)
  | node (entries : List (String × PyVal))

/-- Whether the first list begins the second one (element-wise). -/
def beginsWith : List Char → List Char → Bool
  | [], _ => true
  | _ :: _, [] => false
  | a :: as, b :: bs => a = b && beginsWith as bs

/-- Whether the first list occurs contiguously inside the second:
Python's `needle in hay` on strings, over character lists. -/
def containsSub (needle : List Char) : List Char → Bool
  | [] => needle.isEmpty
  | c :: cs => beginsWith needle (c :: cs) || containsSub needle cs

/-- Python's `in` operator as applied by `if not "target" in config`:
key containment for a dict, SUBSTRING containment for a string. -/
def pyContains (config : PyConfig) (needle : String) : Bool :=
  match config with
  | .str s => containsSub needle.toList s.toList
  | .node entries => (entries.lookup needle).isSome

/-- Python's `==` between the config argument and a string literal:
string equality when the config is a string, `False` when it is a dict. -/
def pyEqStr (config : PyConfig) (t : String) : Bool :=
  match config with
  | .str s => s = t
  | .node _ => false

/-- The `KeyError("Expected key `target` to instantiate.")` raised by
`instantiate_from_config` — the spec's `MissingTargetKey`. -/
def MissingTargetKey : PyErr :=
  .keyError "Expected key `target` to instantiate."

/-- `config.get("params", dict())` followed by the `**` keyword
expansion: absent key gives the empty keyword list, a dict value gives
its entries, any other value makes the `**`-call raise `TypeError`. -/
def kwargsOf (entries : List (String × PyVal)) :
    Except PyErr (List (String × PyVal)) :=
  match entries.lookup "params" with
  | Option.none => .ok []
  | some (.dict d) => .ok d
  | some _ => .error (.typeError "argument after ** must be a mapping")

/-- The body of the `try` block of `instantiate_from_config`:
`get_obj_from_str(config["target"])(**config.get("params", dict()))`.
Indexing a string config with `"target"` raises `TypeError`; calling
`.rsplit` on a non-string target value raises `AttributeError`;
otherwise the target identifier is resolved and the object is called
with the `params` keyword arguments. -/
def tryInstantiate (env : PyEnv) (config : PyConfig) : Except PyErr PyVal :=
  match config with
  | .str _ => .error (.typeError "string indices must be integers")
  | .node entries =>
    match entries.lookup "target" with
    | Option.none => .error (.keyError "target")
    | some (.str t) =>
      match get_obj_from_str env t with
      | .error e => .error e
      | .ok obj =>
        match kwargsOf entries with
        | .error e => .error e
        | .ok kwargs => obj.call kwargs
    | some _ => .error (.attributeError "rsplit")

/-- Outcome of `instantiate_from_config`: a returned value, an exception
propagating to the caller, or the interactive debugger being entered
(`except: import ipdb; ipdb.set_trace()`) with the in-flight exception. -/
inductive PyResult where
  | ok (v : PyVal)
  | raised (e : PyErr)
  | debugger (e : PyErr)

/-- Embedding of `instantiate_from_config(config)`: when the membership
test `"target" in config` fails, return `None` for the two sentinel
strings and raise `KeyError` otherwise; when it succeeds, run the `try`
body, and on ANY exception enter the interactive debugger (the bare
`except:` handler). -/
def instantiate_from_config (env : PyEnv) (config : PyConfig) : PyResult :=
  if pyContains config "target" = false then
    if pyEqStr config "__is_first_stage__" then .ok .none
    else if pyEqStr config "__is_unconditional__" then .ok .none
    else .raised MissingTargetKey
  else
    match tryInstantiate env config with
    | .ok v => .ok v
    | .error e => .debugger e

/-! ### The value-default helper `exists` / `default`

The helper is generic over Python values; for it the relevant distinctions
are: the `None` singleton, plain non-callable values, Python FUNCTIONS
(`types.FunctionType`: `def`-functions and lambdas, for which
`inspect.isfunction` returns `True`), and callables that are NOT functions
(classes, instances with a call method, builtins — `callable` returns
`True` but `inspect.isfunction` returns `False`).  A callable carries the
value it returns when invoked with no arguments. -/

/-- Python values as observed by `exists` / `default`. -/
inductive DVal where
  | none
  | plain (n : Int)
  /-- A Python function (lambda / `def`): `inspect.isfunction` is `True`;
  calling it with no arguments returns `r`. -/
  | func (r : DVal)
  /-- A callable that is not a function (class, callable instance,
  builtin): `callable` is `True` but `inspect.isfunction` is `False`;
  calling it with no arguments returns `r`. -/
  | callableObj (r : DVal)
  deriving DecidableEq, Repr

/-- `inspect.isfunction`: `True` exactly on Python function objects. -/
def isfunction : DVal → Bool
  | .func _ => true
  | _ => false

/-- Python's builtin `callable` predicate. -/
def pyCallable : DVal → Bool
  | .func _ => true
  | .callableObj _ => true
  | _ => false

/-- The result of calling a callable with no arguments (`d()`). -/
def callResult : DVal → DVal
  | .func r => r
  | .callableObj r => r
  | v => v

/-- Embedding of `exists(x)`: `x is not None`. -/
def «exists» (x : DVal) : Bool :=
  x != DVal.none

/-- Embedding of `default(val, d)`: return `val` when it exists, else
`d()` if `d` is a function (per `inspect.isfunction`), else `d` itself. -/
def default (val d : DVal) : DVal :=
  if AudioLDM2.«exists» val then val
  else if isfunction d then callResult d else d

/-- How many times `default(val, d)` invokes `d` along its executed path:
the sole call site `d()` runs exactly once, in the branch where `val`
does not exist and `inspect.isfunction(d)` holds. -/
def defaultCalls (val d : DVal) : Nat :=
  if AudioLDM2.«exists» val then 0
  else if isfunction d then 1 else 0

/-! ### WAV inspection helpers

`wave.open` is a standard-library collaborator; a readable PCM WAV file
is modelled by the header fields the code reads (`getnframes`,
`getframerate`, `getsampwidth`).  Python's float division
`frames / float(rate)` is modelled as exact rational division, with
`ZeroDivisionError` on a zero rate as in Python. -/

/-- The header fields of an open PCM WAV file. -/
structure WavInfo where
  nframes : Nat
  framerate : Nat
  sampwidth : Nat

/-- Embedding of `get_duration(fname)`: `frames / float(rate)`. -/
def get_duration (w : WavInfo) : Except PyErr ℚ :=
  if w.framerate = 0 then .error .zeroDivisionError
  else .ok ((w.nframes : ℚ) / (w.framerate : ℚ))

/-- Embedding of `get_bit_depth(fname)`: `sampwidth * 8`. -/
def get_bit_depth (w : WavInfo) : Nat :=
  w.sampwidth * 8

/-! ### Checkpoint metadata and download -/

/-- One entry of the checkpoint metadata table. -/
structure CkptMeta where
  path : String
  url : String
  deriving DecidableEq, Repr

/-- `os.path.join` for the one join the code performs. -/
def pathJoin (a b : String) : String :=
  a ++ "/" ++ b

/-- `os.path.basename`: the part after the last `/` (the whole string
when there is no `/`). -/
def basename (p : String) : String :=
  match rsplitLast '/' p with
  | Option.none => p
  | some (_, b) => b

/-- `os.path.dirname`: the part before the last `/` (empty when there is
no `/`). -/
def dirname (p : String) : String :=
  match rsplitLast '/' p with
  | Option.none => ""
  | some (d, _) => d

/-- Embedding of `get_metadata()`, parameterized by the cache directory
(`AUDIOLDM_CACHE_DIR` or the platform default). -/
def get_metadata (cacheDir : String) : List (String × CkptMeta) :=
  [("audioldm2-full",
    { path := pathJoin cacheDir "audioldm2-full.pth",
      url := "https://huggingface.co/haoheliu/audioldm2-full/resolve/main/audioldm2-full.pth" })]

/-- The arguments `download_checkpoint` passes to `hf_hub_download`. -/
structure HubDownload where
  repo_id : String
  filename : String
  local_dir : String
  deriving DecidableEq, Repr

/-- The observable outcome of `download_checkpoint`: whether the
unsupported-model message was printed, and then either the exception
that escapes or the download call that is attempted. -/
structure DownloadOutcome where
  printedUnsupported : Bool
  result : Except PyErr HubDownload
  deriving Repr

/-- Embedding of `download_checkpoint(checkpoint_name)`: when the name is
not a key of the metadata table, print the unsupported-model message and
FALL THROUGH; then `meta[checkpoint_name]` is evaluated regardless, so a
missing name raises `KeyError` there, while a present name leads to the
`hf_hub_download` call with the basename/dirname of the recorded path. -/
def download_checkpoint (cacheDir : String)
    (checkpoint_name : String := "audioldm2-full") : DownloadOutcome :=
  let meta := get_metadata cacheDir
  let printed := ((meta.lookup checkpoint_name).isSome : Bool) = false
  match meta.lookup checkpoint_name with
  | Option.none =>
    { printedUnsupported := printed, result := .error (.keyError checkpoint_name) }
  | some m =>
    { printedUnsupported := printed,
      result := .ok
        { repo_id := "haoheliu/" ++ checkpoint_name,
          filename := basename m.path,
          local_dir := dirname m.path } }

/-! ### Concrete environments used by witnesses -/

/-- A constructor that stores its keyword arguments on the instance. -/
def storingCtor (cls : String) : PyObj :=
  ⟨fun kwargs => .ok (.instance cls kwargs)⟩

/-- A constructor whose body raises. -/
def boomCtor : PyObj :=
  ⟨fun _ => .error (.userError "boom")⟩

/-- A module environment with a module `a.b` defining a storing
constructor `C`, and a module `m` defining a raising constructor `Boom`. -/
def exEnv : PyEnv := fun modName =>
  if modName = "a.b" then
    some (fun c => if c = "C" then some (storingCtor "C") else Option.none)
  else if modName = "m" then
    some (fun c => if c = "Boom" then some boomCtor else Option.none)
  else Option.none

/-! ### Helper lemmas -/

theorem toList_append (a b : String) : (a ++ b).toList = a.toList ++ b.toList := by
  cases a
  cases b
  rfl

theorem breakAtFirst_append (sep : Char) (l1 l2 : List Char)
    (h : ∀ c ∈ l1, c ≠ sep) :
    breakAtFirst sep (l1 ++ sep :: l2) = some (l1, l2) := by
  induction l1 with
  | nil => simp [breakAtFirst]
  | cons c cs ih =>
    have hc : c ≠ sep := h c (List.mem_cons_self c cs)
    simp only [List.cons_append, breakAtFirst, if_neg hc, List.append_eq]
    rw [ih (fun x hx => h x (List.mem_cons_of_mem c hx))]

theorem breakAtFirst_of_not_mem (sep : Char) (l : List Char) (h : sep ∉ l) :
    breakAtFirst sep l = Option.none := by
  induction l with
  | nil => rfl
  | cons c cs ih =>
    have hc : c ≠ sep := fun e => h (e ▸ List.mem_cons_self c cs)
    simp only [breakAtFirst, if_neg hc]
    rw [ih (fun hm => h (List.mem_cons_of_mem c hm))]

theorem rsplitLast_concat (pre suf : String) (h : '.' ∉ suf.toList) :
    rsplitLast '.' (pre ++ "." ++ suf) = some (pre, suf) := by
  unfold rsplitLast
  have hl : (pre ++ "." ++ suf).toList.reverse
      = suf.toList.reverse ++ '.' :: pre.toList.reverse := by
    rw [toList_append, toList_append]
    simp [List.reverse_append]
  rw [hl, breakAtFirst_append '.' _ _
    (fun c hc he => h (he ▸ List.mem_reverse.mp hc))]
  simp

theorem rsplitLast_of_no_dot (s : String) (h : '.' ∉ s.toList) :
    rsplitLast '.' s = Option.none := by
  unfold rsplitLast
  rw [breakAtFirst_of_not_mem '.' _ (fun hm => h (List.mem_reverse.mp hm))]

/-! ### Claims -/

/-- C5: resolving either of the two reserved sentinel strings
`"__is_first_stage__"` and `"__is_unconditional__"` returns `None`
immediately; the module environment is universally quantified and never
consulted, so no identifier resolution or lookup is attempted. -/
theorem C5_sentinels_return_none (env : PyEnv) :
    instantiate_from_config env (.str "__is_first_stage__") = .ok .none ∧
    instantiate_from_config env (.str "__is_unconditional__") = .ok .none := by
  exact ⟨rfl, rfl⟩

/-- C6: every input on which the membership test `"target" in config`
fails (for a config node: no `target` key) and which is not one of the
two sentinel values makes `instantiate_from_config` raise the
`MissingTargetKey` error. -/
theorem C6_missing_target_raises (env : PyEnv) (config : PyConfig)
    (h1 : pyContains config "target" = false)
    (h2 : pyEqStr config "__is_first_stage__" = false)
    (h3 : pyEqStr config "__is_unconditional__" = false) :
    instantiate_from_config env config = .raised MissingTargetKey := by
  simp [instantiate_from_config, h1, h2, h3]

/-- Witness for C6 at a concrete node lacking `target`. -/
theorem C6_missing_target_raises_witness :
    instantiate_from_config exEnv (.node [("foo", .int 0)])
      = .raised MissingTargetKey :=
  C6_missing_target_raises exEnv (.node [("foo", .int 0)]) rfl rfl rfl

/-- C7: an identifier with no `.` separator makes `get_obj_from_str`
fail with `MalformedIdentifier` (the `ValueError` of the failed tuple
unpacking), for every environment and either reload mode. -/
theorem C7_no_separator_malformed (env : PyEnv) (s : String) (reload : Bool)
    (h : '.' ∉ s.toList) :
    get_obj_from_str env s reload = .error MalformedIdentifier := by
  unfold get_obj_from_str
  rw [rsplitLast_of_no_dot s h]

/-- Witness for C7 at the dot-free identifier `"abc"`. -/
theorem C7_no_separator_malformed_witness :
    '.' ∉ "abc".toList ∧
    get_obj_from_str exEnv "abc" false = .error MalformedIdentifier :=
  ⟨by decide, C7_no_separator_malformed exEnv "abc" false (by decide)⟩

/-- C2: for every identifier of the form `modPath ++ "." ++ sym` whose
symbol part contains no further dot (so the split is at the LAST
separator), `get_obj_from_str` loads the module named by the whole
path before the last dot and returns the symbol it defines under the
name after it. -/
theorem C2_resolution_splits_on_last_dot (env : PyEnv)
    (ns : String → Option PyObj) (obj : PyObj)
    (modPath sym s : String) (reload : Bool)
    (hs : s = modPath ++ "." ++ sym)
    (hsym : '.' ∉ sym.toList)
    (henv : env modPath = some ns)
    (hns : ns sym = some obj) :
    get_obj_from_str env s reload = .ok obj := by
  subst hs
  unfold get_obj_from_str
  rw [rsplitLast_concat modPath sym hsym]
  cases reload with
  | false =>
    simp [importGetattr, henv, hns]
  | true =>
    simp [importGetattr, henv, hns]

/-- Witness for C2: `"a.b.C"` resolves to the symbol `C` of module
`a.b` in the concrete environment `exEnv`. -/
theorem C2_resolution_splits_on_last_dot_witness :
    get_obj_from_str exEnv "a.b.C" false = .ok (storingCtor "C") :=
  C2_resolution_splits_on_last_dot exEnv
    (fun c => if c = "C" then some (storingCtor "C") else Option.none)
    (storingCtor "C") "a.b" "C" "a.b.C" false rfl (by decide) rfl rfl

/-- C3: for every config node whose `target` key holds an identifier
string that resolves to a constructor, `instantiate_from_config` invokes
that constructor with the node's `params` entries as keyword arguments
and returns the constructed value; and when the `params` key is absent
the keyword arguments default to the empty mapping. -/
theorem C3_target_invoked_with_params :
    (∀ (env : PyEnv) (entries : List (String × PyVal)) (t : String)
      (obj : PyObj) (kwargs : List (String × PyVal)) (v : PyVal),
      entries.lookup "target" = some (.str t) →
      get_obj_from_str env t = .ok obj →
      kwargsOf entries = .ok kwargs →
      obj.call kwargs = .ok v →
      instantiate_from_config env (.node entries) = .ok v) ∧
    (∀ entries : List (String × PyVal),
      entries.lookup "params" = Option.none → kwargsOf entries = .ok []) := by
  constructor
  · intro env entries t obj kwargs v h1 h2 h3 h4
    simp [instantiate_from_config, pyContains, h1, tryInstantiate, h2, h3, h4]
  · intro entries h
    simp [kwargsOf, h]

/-- Witness for C3: resolving `{target: "a.b.C", params: {x: 1}}` in the
concrete environment `exEnv`, where `C` stores its keyword arguments,
returns an instance whose attribute `x` equals `1`. -/
theorem C3_target_invoked_with_params_witness :
    instantiate_from_config exEnv
        (.node [("target", .str "a.b.C"), ("params", .dict [("x", .int 1)])])
      = .ok (.instance "C" [("x", .int 1)]) ∧
    getattrOn (.instance "C" [("x", .int 1)]) "x" = some (.int 1) :=
  ⟨C3_target_invoked_with_params.1 exEnv
      [("target", .str "a.b.C"), ("params", .dict [("x", .int 1)])]
      "a.b.C" (storingCtor "C") [("x", .int 1)]
      (.instance "C" [("x", .int 1)]) rfl
      C2_resolution_splits_on_last_dot_witness rfl rfl,
    rfl⟩

/-- C1 (code behavior at the failing input): when the resolved
constructor raises during invocation, `instantiate_from_config` does NOT
surface the failure to the caller as an error — the outcome is
`PyResult.debugger`, i.e. the bare `except:` handler enters the
interactive debugger (`ipdb.set_trace()`) with the in-flight exception,
rather than `PyResult.raised` of any wrapping error. -/
theorem C1_constructor_exception_enters_debugger :
    instantiate_from_config exEnv (.node [("target", .str "m.Boom")])
      = .debugger (.userError "boom") := rfl

/-- C4 counterexample: the claim says the default is invoked whenever it
is CALLABLE, but the code tests `inspect.isfunction`; a callable that is
not a function (a class or callable instance, modelled by
`DVal.callableObj`) is returned unevaluated, with zero invocations. -/
theorem C4_callable_not_invoked_counterexample :
    pyCallable (DVal.callableObj (DVal.plain 10)) = true ∧
    AudioLDM2.default DVal.none (DVal.callableObj (DVal.plain 10))
      = DVal.callableObj (DVal.plain 10) ∧
    defaultCalls DVal.none (DVal.callableObj (DVal.plain 10)) = 0 ∧
    ¬ (AudioLDM2.default DVal.none (DVal.callableObj (DVal.plain 10))
        = callResult (DVal.callableObj (DVal.plain 10)) ∧
       defaultCalls DVal.none (DVal.callableObj (DVal.plain 10)) = 1) := by
  decide

/-- C4 (amended): `default` returns `val` whenever it is present (never
invoking the producer); otherwise it returns `d()` — invoking `d`
exactly once — when `d` is a Python FUNCTION per `inspect.isfunction`,
and returns `d` itself, uninvoked, for any other default (including
callables that are not functions). -/
theorem C4_default_helper_amended (val d : DVal) :
    (AudioLDM2.«exists» val = true →
      AudioLDM2.default val d = val ∧ defaultCalls val d = 0) ∧
    (AudioLDM2.«exists» val = false → isfunction d = true →
      AudioLDM2.default val d = callResult d ∧ defaultCalls val d = 1) ∧
    (AudioLDM2.«exists» val = false → isfunction d = false →
      AudioLDM2.default val d = d ∧ defaultCalls val d = 0) := by
  refine ⟨fun h => ?_, fun h hf => ?_, fun h hf => ?_⟩
  · simp [AudioLDM2.default, defaultCalls, h]
  · simp [AudioLDM2.default, defaultCalls, h, hf]
  · simp [AudioLDM2.default, defaultCalls, h, hf]

/-- Witness for C4 (amended), matching the spec's worked examples:
`default(5, 10) = 5` with no invocation, `default(None, lambda: 10) = 10`
with exactly one invocation, and `default(None, 10) = 10` directly. -/
theorem C4_default_helper_amended_witness :
    (AudioLDM2.default (DVal.plain 5) (DVal.plain 10) = DVal.plain 5 ∧
      defaultCalls (DVal.plain 5) (DVal.plain 10) = 0) ∧
    (AudioLDM2.default DVal.none (DVal.func (DVal.plain 10)) = DVal.plain 10 ∧
      defaultCalls DVal.none (DVal.func (DVal.plain 10)) = 1) ∧
    (AudioLDM2.default DVal.none (DVal.plain 10) = DVal.plain 10 ∧
      defaultCalls DVal.none (DVal.plain 10) = 0) :=
  ⟨(C4_default_helper_amended (DVal.plain 5) (DVal.plain 10)).1 (by decide),
   (C4_default_helper_amended DVal.none (DVal.func (DVal.plain 10))).2.1
      (by decide) (by decide),
   (C4_default_helper_amended DVal.none (DVal.plain 10)).2.2
      (by decide) (by decide)⟩

/-- C8: for every readable PCM WAV file (positive sample rate),
`get_duration` returns the frame count divided by the sample rate — the
returned duration times the sample rate gives back the frame count — and
`get_bit_depth` returns the sample width in bytes times 8. -/
theorem C8_wav_duration_and_bit_depth (w : WavInfo) (h : 0 < w.framerate) :
    (∃ q : ℚ, get_duration w = .ok q ∧
      q * (w.framerate : ℚ) = (w.nframes : ℚ)) ∧
    get_bit_depth w = w.sampwidth * 8 := by
  have hz : w.framerate ≠ 0 := Nat.pos_iff_ne_zero.mp h
  refine ⟨⟨(w.nframes : ℚ) / (w.framerate : ℚ), ?_, ?_⟩, rfl⟩
  · simp [get_duration, hz]
  · exact div_mul_cancel₀ _ (by exact_mod_cast hz)

/-- Witness for C8: a 2-second, 16 kHz, 16-bit file. -/
theorem C8_wav_duration_and_bit_depth_witness :
    (0 : Nat) < 16000 ∧
    ((∃ q : ℚ, get_duration ⟨32000, 16000, 2⟩ = .ok q ∧
        q * ((16000 : Nat) : ℚ) = ((32000 : Nat) : ℚ)) ∧
      get_bit_depth ⟨32000, 16000, 2⟩ = 2 * 8) :=
  ⟨by decide, C8_wav_duration_and_bit_depth ⟨32000, 16000, 2⟩ (by decide)⟩

/-- C9: on string inputs the `target` test is SUBSTRING containment — a
string containing `"target"` is routed into the try-block where it is
indexed like a mapping (raising `TypeError`, hence landing in the
debugger), never producing `MissingTargetKey`; a string not containing
`"target"` and not equal to a sentinel raises `MissingTargetKey`. -/
theorem C9_string_target_is_substring_test (env : PyEnv) (s : String) :
    (pyContains (.str s) "target" = true →
      instantiate_from_config env (.str s)
        = .debugger (.typeError "string indices must be integers") ∧
      instantiate_from_config env (.str s) ≠ .raised MissingTargetKey) ∧
    (pyContains (.str s) "target" = false →
      s ≠ "__is_first_stage__" → s ≠ "__is_unconditional__" →
      instantiate_from_config env (.str s) = .raised MissingTargetKey) := by
  constructor
  · intro h
    have he : instantiate_from_config env (.str s)
        = .debugger (.typeError "string indices must be integers") := by
      simp [instantiate_from_config, h, tryInstantiate]
    refine ⟨he, ?_⟩
    rw [he]
    intro hcontra
    exact PyResult.noConfusion hcontra
  · intro h h1 h2
    simp [instantiate_from_config, h, pyEqStr, h1, h2]

/-- Witness for C9: `"retargeted"` contains `"target"` and reaches the
string-indexing `TypeError` path; `"plainstring"` does not and raises
`MissingTargetKey`. -/
theorem C9_string_target_is_substring_test_witness :
    (instantiate_from_config exEnv (.str "retargeted")
        = .debugger (.typeError "string indices must be integers") ∧
      instantiate_from_config exEnv (.str "retargeted")
        ≠ .raised MissingTargetKey) ∧
    instantiate_from_config exEnv (.str "plainstring")
      = .raised MissingTargetKey :=
  ⟨(C9_string_target_is_substring_test exEnv "retargeted").1 (by decide),
   (C9_string_target_is_substring_test exEnv "plainstring").2
      (by decide) (by decide) (by decide)⟩

/-- C10: a checkpoint name absent from the metadata table makes
`download_checkpoint` print the unsupported-model message and still
proceed to index the table, failing with `KeyError` on the name instead
of aborting cleanly; a present name prints nothing and leads to the
`hf_hub_download` attempt with the basename/dirname of the recorded
path. -/
theorem C10_download_unsupported_name (cacheDir name : String) :
    ((get_metadata cacheDir).lookup name = Option.none →
      download_checkpoint cacheDir name
        = { printedUnsupported := true,
            result := .error (.keyError name) }) ∧
    (∀ m : CkptMeta, (get_metadata cacheDir).lookup name = some m →
      download_checkpoint cacheDir name
        = { printedUnsupported := false,
            result := .ok
              { repo_id := "haoheliu/" ++ name,
                filename := basename m.path,
                local_dir := dirname m.path } }) := by
  constructor
  · intro h
    simp [download_checkpoint, h]
  · intro m h
    simp [download_checkpoint, h]

/-- Witness for C10: the unknown name `"nope"` raises `KeyError` after
printing; the known name `"audioldm2-full"` attempts the download. -/
theorem C10_download_unsupported_name_witness :
    download_checkpoint "/cache" "nope"
      = { printedUnsupported := true,
          result := .error (.keyError "nope") } ∧
    download_checkpoint "/cache" "audioldm2-full"
      = { printedUnsupported := false,
          result := .ok
            { repo_id := "haoheliu/" ++ "audioldm2-full",
              filename := basename (pathJoin "/cache" "audioldm2-full.pth"),
              local_dir := dirname (pathJoin "/cache" "audioldm2-full.pth") } } :=
  ⟨(C10_download_unsupported_name "/cache" "nope").1 rfl,
   (C10_download_unsupported_name "/cache" "audioldm2-full").2
      { path := pathJoin "/cache" "audioldm2-full.pth",
        url := "https://huggingface.co/haoheliu/audioldm2-full/resolve/main/audioldm2-full.pth" }
      rfl⟩

end AudioLDM2
